import Mathlib

/-!
Formal model of the AT Data Sandbox generation-and-validation pipeline
(`src/data/generator.py`, `src/data/validator.py`, `src/data/models.py`,
configuration shape from `src/config/settings.py`).

Conventions of the embedding:
* `datetime` values are day numbers (`Int`); `timedelta(days = d)` is addition.
* Monetary amounts and rates are rationals (`ℚ`); Python `round(x, k)` is
  exact round-half-to-even on rationals.
* The process-global random sources (`random`, `np.random`) are modelled as a
  stream of natural-number draws (`RNG`).  Each sampling primitive consumes
  one draw per sampled value and coerces it into the support of the sampled
  distribution, so quantifying over all streams quantifies over every value
  the source distributions can produce.  `random.seed(seed)` /
  `np.random.seed(seed)` correspond to deriving the stream from the seed
  alone (`seedTape`).
* Configuration values come from `config.yaml`, loaded at startup by
  `src/config/settings.py`; they are external input, so the configuration is
  a parameter (`Settings`) of every function, with the shape used by the
  generator and validator.
-/

set_option maxRecDepth 100000

/-- A source of random draws: an infinite tape of natural numbers and a read
position.  This models the state of the process-global random generators. -/
structure RNG where
  tape : Nat → Nat
  pos : Nat

/-- Read one draw and advance the stream. -/
def RNG.next (r : RNG) : Nat × RNG :=
  (r.tape r.pos, ⟨r.tape, r.pos + 1⟩)

/-- Models `random.randint(a, b)` (both endpoints inclusive): one draw mapped
into `[a, b]`. -/
def randint (a b : Int) (r : RNG) : Int × RNG :=
  (a + (r.tape r.pos : Int) % (b - a + 1), ⟨r.tape, r.pos + 1⟩)

/-- Models `random.random()`: one draw giving a value in `[0, 1)` on the
53-bit grid, as in CPython. -/
def randUnit (r : RNG) : ℚ × RNG :=
  (((r.tape r.pos % 2 ^ 53 : Nat) : ℚ) / 2 ^ 53, ⟨r.tape, r.pos + 1⟩)

/-- Models `random.uniform(a, b)`, which CPython computes as
`a + (b - a) * random.random()`. -/
def randUniform (a b : ℚ) (r : RNG) : ℚ × RNG :=
  (a + (b - a) * (randUnit r).1, (randUnit r).2)

/-- Models `random.choice(xs)`: one draw picking an element of `xs`.
`random.choice` raises on an empty sequence; the embedding returns `d` there,
and the pipeline only applies it to the configured vocabularies. -/
def randChoice {α : Type} (xs : List α) (d : α) (r : RNG) : α × RNG :=
  (xs.getD (r.tape r.pos % xs.length) d, ⟨r.tape, r.pos + 1⟩)

/-- Models `np.random.beta(a, b)`: one draw giving a value in the support
`[0, 1]` of the Beta distribution (the shape parameters only weight the
distribution inside that support). -/
def betaSample (a b : ℚ) (r : RNG) : ℚ × RNG :=
  (((r.tape r.pos % (2 ^ 53 + 1) : Nat) : ℚ) / 2 ^ 53, ⟨r.tape, r.pos + 1⟩)

/-- Models `np.random.poisson(lam)`: one draw giving a value in the support
`ℕ` of the Poisson distribution. -/
def poissonSample (lam : ℚ) (r : RNG) : Nat × RNG :=
  r.next

/-- The sixteen characters of `'0123456789abcdef'` used by
`ATDataGenerator._rand_hex`. -/
def hexDigits : List Char :=
  "0123456789abcdef".toList

/-- Character list of `random.choices('0123456789abcdef', k = n)`: one draw
per character. -/
def randHexChars : Nat → RNG → List Char × RNG
  | 0, r => ([], r)
  | k + 1, r =>
    let rest := randHexChars k ⟨r.tape, r.pos + 1⟩
    (hexDigits.getD (r.tape r.pos % 16) '0' :: rest.1, rest.2)

/-- Models `ATDataGenerator._rand_hex`:
`''.join(random.choices('0123456789abcdef', k=n))`. -/
def _rand_hex (n : Nat) (r : RNG) : String × RNG :=
  (String.mk (randHexChars n r).1, (randHexChars n r).2)

/-- Models `ATDataGenerator._rand_date`: a uniform day offset
`random.randint(0, (end - start).days)` added to `start`. -/
def _rand_date (start stop : Int) (r : RNG) : Int × RNG :=
  (start + (randint 0 (stop - start) r).1, (randint 0 (stop - start) r).2)

/-- Round half to even on rationals; this is Python 3 `round` to zero
decimal places. -/
def roundHalfEven (x : ℚ) : Int :=
  if x - (Rat.floor x : ℚ) < 1 / 2 then Rat.floor x
  else if 1 / 2 < x - (Rat.floor x : ℚ) then Rat.floor x + 1
  else if 2 ∣ Rat.floor x then Rat.floor x else Rat.floor x + 1

/-- Python `round(x, 2)` on rationals. -/
def round2 (x : ℚ) : ℚ :=
  (roundHalfEven (x * 100) : ℚ) / 100

/-- Python `round(x, 1)` on rationals. -/
def round1 (x : ℚ) : ℚ :=
  (roundHalfEven (x * 10) : ℚ) / 10

/-- Models `ATDataGenerator._age_band`: bucket an age into a 5-year band;
Python `//` is floor division. -/
def _age_band (age : Int) : String :=
  let band_start := age.fdiv 5 * 5
  toString band_start ++ "-" ++ toString (band_start + 4)

/-- Zero-pad a natural number to three digits, as Python `f'{i:03d}'` does for
the values `1..40` used below. -/
def pad3 (i : Nat) : String :=
  if i < 10 then "00" ++ toString i
  else if i < 100 then "0" ++ toString i
  else toString i

/-- Models `ATDataGenerator._generate_support_items`: the forty codes
`f'05_{i:03d}_0101_1_{i*10}'` for `i in range(1, 41)`. -/
def _generate_support_items : List String :=
  (List.range' 1 40).map fun i => "05_" ++ pad3 i ++ "_0101_1_" ++ toString (i * 10)

/-- Shape of `settings.generation` as used by the generator and validator:
participant-count bounds, plan duration, budget bounds, processing-day
bounds. -/
structure GenerationConfig where
  participants_min : Int
  participants_max : Int
  duration_days : Int
  budget_min : ℚ
  budget_max : ℚ
  processing_min : Int
  processing_max : Int

/-- Shape of `settings.lookup_data`: the closed categorical vocabularies. -/
structure LookupData where
  states : List String
  mmm_codes : List String
  disabilities : List String
  plan_management_modes : List String
  variation_types : List String

/-- The configuration object (`src/config/settings.py`); its values are
loaded from `config.yaml` at startup and are external input to the core. -/
structure Settings where
  generation : GenerationConfig
  lookup_data : LookupData

/-- Well-formedness of the external configuration: budget bounds are ordered
two-decimal (cent-aligned) monetary amounts and the plan duration is at
least one day, per the documented configuration contract. -/
structure SettingsWf (s : Settings) : Prop where
  budget_le : s.generation.budget_min ≤ s.generation.budget_max
  budget_min_cents : ∃ k : Int, s.generation.budget_min = (k : ℚ) / 100
  budget_max_cents : ∃ k : Int, s.generation.budget_max = (k : ℚ) / 100
  duration_pos : 1 ≤ s.generation.duration_days

/-- Models `GenerationParams` from `src/data/models.py`; the three dates are
day numbers. -/
structure GenerationParams where
  n_participants : Int
  avg_plans : ℚ
  claims_min : Int
  claims_max : Int
  util_target : Int
  util_spread : Int
  seed : Int
  pace_live : Int
  window_start : Int
  window_end : Int

/-- A row of the participants table generated by
`ATDataGenerator.generate_participants`. -/
structure Participant where
  Hashed_Participant_ID : String
  State : String
  MMM_Code : String
  Age_Band : String
  Primary_Disability : String
deriving DecidableEq

/-- A row of the plans table generated by `ATDataGenerator.generate_plans`. -/
structure Plan where
  Plan_ID : String
  Hashed_Participant_ID : String
  Plan_Start_Date : Int
  Plan_End_Date : Int
  Capital_AT_Budget_Total_AUD : ℚ
  Plan_Management_Mode : String
  Variation_Type : String
deriving DecidableEq

/-- A row of the utilization table generated by
`ATDataGenerator.generate_utilization_and_claims`. -/
structure UtilizationRecord where
  Plan_ID : String
  Utilization_Rate_Percent : ℚ
  Total_Spent_AUD : ℚ
  Avg_Processing_Days : Int
deriving DecidableEq

/-- A row of the claims table generated by
`ATDataGenerator.generate_utilization_and_claims`. -/
structure ClaimRecord where
  Plan_ID : String
  Support_Item_Type : String
  Paid_UnitPrice_AUD : ℚ
deriving DecidableEq

/-- One `errors.append` site of the validator: the message is emitted exactly
when the bad condition holds. -/
def errIf (bad : Prop) [Decidable bad] (msg : String) : List String :=
  if bad then [msg] else []

/-- The participant-count message, which interpolates the configured bounds. -/
def participantsMsg (s : Settings) : String :=
  "Participants must be between " ++ toString s.generation.participants_min ++
    " and " ++ toString s.generation.participants_max

/-- Models `DataValidator.validate_generation_params`: checks every condition
and appends one message per failed condition, in source order. -/
def validate_generation_params (s : Settings) (p : GenerationParams) : List String :=
  errIf (¬ (s.generation.participants_min ≤ p.n_participants ∧
      p.n_participants ≤ s.generation.participants_max)) (participantsMsg s)
  ++ errIf (p.claims_max < p.claims_min) "Min claims cannot exceed max claims"
  ++ errIf (p.claims_min < 1) "Min claims must be at least 1"
  ++ errIf (¬ (0 ≤ p.util_target ∧ p.util_target ≤ 100))
      "Utilization target must be between 0 and 100"
  ++ errIf (p.util_spread < 1) "Utilization spread must be at least 1"
  ++ errIf (p.window_end ≤ p.window_start) "Window start must be before window end"
  ++ errIf (p.pace_live < p.window_start ∨ p.window_end < p.pace_live)
      "PACE live date must be within the window"

/-- Models one iteration of the loop in
`ATDataGenerator.generate_participants`, drawing age, identifier, state,
code and disability in source evaluation order. -/
def genParticipant (s : Settings) (r : RNG) : Participant × RNG :=
  let age := (randint 5 70 r).1
  let r1 := (randint 5 70 r).2
  let pid := (_rand_hex 8 r1).1
  let r2 := (_rand_hex 8 r1).2
  let st := (randChoice s.lookup_data.states "" r2).1
  let r3 := (randChoice s.lookup_data.states "" r2).2
  let mmm := (randChoice s.lookup_data.mmm_codes "" r3).1
  let r4 := (randChoice s.lookup_data.mmm_codes "" r3).2
  let dis := (randChoice s.lookup_data.disabilities "" r4).1
  let r5 := (randChoice s.lookup_data.disabilities "" r4).2
  (⟨pid, st, mmm, _age_band age, dis⟩, r5)

/-- The `for _ in range(n)` loop of `ATDataGenerator.generate_participants`. -/
def genParticipants (s : Settings) : Nat → RNG → List Participant × RNG
  | 0, r => ([], r)
  | k + 1, r =>
    let rest := genParticipants s k (genParticipant s r).2
    ((genParticipant s r).1 :: rest.1, rest.2)

/-- Models `ATDataGenerator.generate_participants`; `range(n)` is empty for
`n ≤ 0`. -/
def generate_participants (s : Settings) (n : Int) (r : RNG) : List Participant × RNG :=
  genParticipants s n.toNat r

/-- Models one iteration of the inner loop of
`ATDataGenerator.generate_plans`: start date, end date capped at the window
end, identifier, budget (rounded to cents), management mode and variation
type, in source evaluation order. -/
def genPlan (s : Settings) (p : GenerationParams) (pid : String) (r : RNG) : Plan × RNG :=
  let sd := (_rand_date p.window_start p.window_end r).1
  let r1 := (_rand_date p.window_start p.window_end r).2
  let ed := min (sd + s.generation.duration_days) p.window_end
  let planId := (_rand_hex 8 r1).1
  let r2 := (_rand_hex 8 r1).2
  let bu := (randUniform s.generation.budget_min s.generation.budget_max r2).1
  let r3 := (randUniform s.generation.budget_min s.generation.budget_max r2).2
  let mode := (randChoice s.lookup_data.plan_management_modes "" r3).1
  let r4 := (randChoice s.lookup_data.plan_management_modes "" r3).2
  let vt := (randChoice s.lookup_data.variation_types "" r4).1
  let r5 := (randChoice s.lookup_data.variation_types "" r4).2
  (⟨planId, pid, sd, ed, round2 bu, mode, vt⟩, r5)

/-- The `for _ in range(n_plans)` loop of `ATDataGenerator.generate_plans`. -/
def genPlansFor (s : Settings) (p : GenerationParams) (pid : String) :
    Nat → RNG → List Plan × RNG
  | 0, r => ([], r)
  | k + 1, r =>
    let rest := genPlansFor s p pid k (genPlan s p pid r).2
    ((genPlan s p pid r).1 :: rest.1, rest.2)

/-- The outer loop of `ATDataGenerator.generate_plans`: per participant, a
Poisson-sampled plan count floored to at least one. -/
def genPlansAll (s : Settings) (p : GenerationParams) :
    List Participant → RNG → List Plan × RNG
  | [], r => ([], r)
  | q :: qs, r =>
    let own := genPlansFor s p q.Hashed_Participant_ID
      (max 1 (poissonSample p.avg_plans r).1) (poissonSample p.avg_plans r).2
    let rest := genPlansAll s p qs own.2
    (own.1 ++ rest.1, rest.2)

/-- Models `ATDataGenerator.generate_plans`, including the pandas column
access `participants_df['Hashed_Participant_ID']` that heads the loop: a
DataFrame built from an empty record list (`pd.DataFrame([])`, which is what
`generate_participants(0)` returns) has no columns at all, so the access
raises `KeyError` on the empty participants table; on a non-empty table the
column exists and the loop `genPlansAll` runs. -/
def generate_plans (s : Settings) (parts : List Participant) (p : GenerationParams)
    (r : RNG) : Except String (List Plan × RNG) :=
  if parts = [] then Except.error "KeyError: 'Hashed_Participant_ID'"
  else Except.ok (genPlansAll s p parts r)

/-- The plans produced by a `generate_plans` call: the returned table on
success, no rows when the call raised. -/
def plansOf (res : Except String (List Plan × RNG)) : List Plan :=
  match res with
  | Except.ok pr => pr.1
  | Except.error _ => []

/-- The claim count `random.randint(params.claims_min, params.claims_max)`
drawn for each plan before the `total_spent > 0` test. -/
def claimCount (p : GenerationParams) (r : RNG) : Int × RNG :=
  randint p.claims_min p.claims_max r

/-- The `for _ in range(n_claims)` loop of
`ATDataGenerator.generate_utilization_and_claims`: each claim draws a support
item and a factor `U(0.8, 1.2)` applied to `total_spent / n_claims`. -/
def genClaims (spent : ℚ) (planId : String) (nc : Int) :
    Nat → RNG → List ClaimRecord × RNG
  | 0, r => ([], r)
  | k + 1, r =>
    let item := (randChoice _generate_support_items "" r).1
    let r1 := (randChoice _generate_support_items "" r).2
    let base := spent / (nc : ℚ)
    let u := (randUniform (4 / 5) (6 / 5) r1).1
    let r2 := (randUniform (4 / 5) (6 / 5) r1).2
    let rest := genClaims spent planId nc k r2
    (⟨planId, item, round2 (base * u)⟩ :: rest.1, rest.2)

/-- Models the body of the per-plan loop of
`ATDataGenerator.generate_utilization_and_claims` (one utilization record,
then the plan's claims when `total_spent > 0`). -/
def processPlan (s : Settings) (p : GenerationParams) (pl : Plan) (r : RNG) :
    (UtilizationRecord × List ClaimRecord) × RNG :=
  let budget := pl.Capital_AT_Budget_Total_AUD
  let bs := (betaSample 2 (p.util_spread : ℚ) r).1
  let r1 := (betaSample 2 (p.util_spread : ℚ) r).2
  let util_rate := min (bs * (p.util_target : ℚ) / 100) 1
  let total_spent := round2 (budget * util_rate)
  let procd := (randint s.generation.processing_min s.generation.processing_max r1).1
  let r2 := (randint s.generation.processing_min s.generation.processing_max r1).2
  let urec : UtilizationRecord := ⟨pl.Plan_ID, round2 (util_rate * 100), total_spent, procd⟩
  let nc := (claimCount p r2).1
  let r3 := (claimCount p r2).2
  if 0 < total_spent then
    ((urec, (genClaims total_spent pl.Plan_ID nc nc.toNat r3).1),
      (genClaims total_spent pl.Plan_ID nc nc.toNat r3).2)
  else
    ((urec, []), r3)

/-- Models `ATDataGenerator.generate_utilization_and_claims`: one utilization
record per plan row, claims accumulated across plans in order. -/
def generate_utilization_and_claims (s : Settings) (p : GenerationParams) :
    List Plan → RNG → (List UtilizationRecord × List ClaimRecord) × RNG
  | [], r => (([], []), r)
  | pl :: pls, r =>
    let uc := (processPlan s p pl r).1
    let rest := generate_utilization_and_claims s p pls (processPlan s p pl r).2
    ((uc.1 :: rest.1.1, uc.2 ++ rest.1.2), rest.2)

/-- Row shape of `plans_df.merge(participants_df, on='Hashed_Participant_ID')`. -/
structure PlanParticipantRow where
  Plan_ID : String
  Hashed_Participant_ID : String
  Plan_Start_Date : Int
  Plan_End_Date : Int
  Capital_AT_Budget_Total_AUD : ℚ
  Plan_Management_Mode : String
  Variation_Type : String
  State : String
  MMM_Code : String
  Age_Band : String
  Primary_Disability : String
deriving DecidableEq

/-- Row shape of the assembled main table (the second merge, on `Plan_ID`). -/
structure MainRow where
  Plan_ID : String
  Hashed_Participant_ID : String
  Plan_Start_Date : Int
  Plan_End_Date : Int
  Capital_AT_Budget_Total_AUD : ℚ
  Plan_Management_Mode : String
  Variation_Type : String
  State : String
  MMM_Code : String
  Age_Band : String
  Primary_Disability : String
  Utilization_Rate_Percent : ℚ
  Total_Spent_AUD : ℚ
  Avg_Processing_Days : Int
deriving DecidableEq

/-- Models `pandas.DataFrame.merge` with an inner join on one key: for each
left row in order, all matching right rows in order. -/
def dfMerge {α β γ : Type} (lk : α → String) (rk : β → String) (comb : α → β → γ)
    (L : List α) (R : List β) : List γ :=
  L.flatMap fun a => (R.filter fun b => rk b == lk a).map (comb a)

/-- Column concatenation of a plan row and its matching participant row. -/
def combineParticipant (pl : Plan) (q : Participant) : PlanParticipantRow :=
  ⟨pl.Plan_ID, pl.Hashed_Participant_ID, pl.Plan_Start_Date, pl.Plan_End_Date,
    pl.Capital_AT_Budget_Total_AUD, pl.Plan_Management_Mode, pl.Variation_Type,
    q.State, q.MMM_Code, q.Age_Band, q.Primary_Disability⟩

/-- Column concatenation of a merged row and its matching utilization row. -/
def combineUtil (row : PlanParticipantRow) (u : UtilizationRecord) : MainRow :=
  ⟨row.Plan_ID, row.Hashed_Participant_ID, row.Plan_Start_Date, row.Plan_End_Date,
    row.Capital_AT_Budget_Total_AUD, row.Plan_Management_Mode, row.Variation_Type,
    row.State, row.MMM_Code, row.Age_Band, row.Primary_Disability,
    u.Utilization_Rate_Percent, u.Total_Spent_AUD, u.Avg_Processing_Days⟩

/-- The participants table of a run of the generation pipeline. -/
def runParticipants (s : Settings) (p : GenerationParams) (r : RNG) : List Participant :=
  (generate_participants s p.n_participants r).1

/-- The random-source state after the participants stage. -/
def runRng1 (s : Settings) (p : GenerationParams) (r : RNG) : RNG :=
  (generate_participants s p.n_participants r).2

/-- The plans table of a run of the generation pipeline (the output of the
plans loop; on a run whose participants table is empty, `generate_plans`
itself raises instead, and these rows never materialise). -/
def runPlans (s : Settings) (p : GenerationParams) (r : RNG) : List Plan :=
  (genPlansAll s p (runParticipants s p r) (runRng1 s p r)).1

/-- The random-source state after the plans stage. -/
def runRng2 (s : Settings) (p : GenerationParams) (r : RNG) : RNG :=
  (genPlansAll s p (runParticipants s p r) (runRng1 s p r)).2

/-- The utilization table of a run of the generation pipeline. -/
def runUtil (s : Settings) (p : GenerationParams) (r : RNG) : List UtilizationRecord :=
  (generate_utilization_and_claims s p (runPlans s p r) (runRng2 s p r)).1.1

/-- The claims table of a run of the generation pipeline. -/
def runClaims (s : Settings) (p : GenerationParams) (r : RNG) : List ClaimRecord :=
  (generate_utilization_and_claims s p (runPlans s p r) (runRng2 s p r)).1.2

/-- The assembled main table: `plans ⋈ participants` on the participant id,
then `⋈ utilization` on the plan id, as in
`ATDataGenerator.generate_complete_dataset`. -/
def runMain (s : Settings) (p : GenerationParams) (r : RNG) : List MainRow :=
  dfMerge (fun pl : Plan => pl.Hashed_Participant_ID)
    (fun q : Participant => q.Hashed_Participant_ID) combineParticipant
    (runPlans s p r) (runParticipants s p r)
  |> fun m1 =>
    dfMerge (fun row : PlanParticipantRow => row.Plan_ID)
      (fun u : UtilizationRecord => u.Plan_ID) combineUtil m1 (runUtil s p r)

/-- The two output tables built by the post-validation part of
`ATDataGenerator.generate_complete_dataset`. -/
def generated_tables (s : Settings) (p : GenerationParams) (r : RNG) :
    List MainRow × List ClaimRecord :=
  (runMain s p r, runClaims s p r)

/-- Models `ATDataGenerator.generate_complete_dataset` with an explicit
random source: a non-empty validation result raises `ValueError` carrying the
errors (the `Except.error` branch) before the random sources are touched;
then the stages run inside the try block, whose only failure point is the
`KeyError` of `generate_plans` on an empty participants table, re-raised as
`RuntimeError(f"Data generation failed: {e}")`; otherwise the tables are
produced. -/
def generate_complete_dataset_from (s : Settings) (p : GenerationParams) (r : RNG) :
    Except (List String) (List MainRow × List ClaimRecord) :=
  let errs := validate_generation_params s p
  if errs = [] then
    match generate_plans s (runParticipants s p r) p (runRng1 s p r) with
    | Except.error e => Except.error ["Data generation failed: " ++ e]
    | Except.ok _ => Except.ok (generated_tables s p r)
  else Except.error errs

/-- Deterministic stand-in for the Mersenne Twister streams that
`random.seed(params.seed)` and `np.random.seed(params.seed)` initialise: a
linear congruential stream that is a function of the seed alone.  The
pipeline only reaches it after the `np.random.seed` range check, so it is
applied to seeds in `[0, 2^32)` only, where `Int.toNat` is faithful. -/
def seedTape (seed : Int) : RNG :=
  ⟨fun n => (fun x => (1103515245 * x + 12345) % 2 ^ 31)^[n + 1] seed.toNat, 0⟩

/-- Message of the `ValueError` that `np.random.seed(params.seed)` raises
when the seed is outside `[0, 2^32 - 1]`; the seeding happens after
validation and before the try block, and this range is not checked by
`validate_generation_params`. -/
def seedRangeMsg : String := "Seed must be between 0 and 2**32 - 1"

/-- Models `ATDataGenerator.generate_complete_dataset`: validate (raising
`ValueError` with the errors on failure), then seed the random sources from
`params.seed` — where `np.random.seed` raises `ValueError` for a seed
outside `[0, 2^32)` — and then run the generation stages on the seeded
stream, so a successful run is a function of the parameters alone. -/
def generate_complete_dataset (s : Settings) (p : GenerationParams) :
    Except (List String) (List MainRow × List ClaimRecord) :=
  let errs := validate_generation_params s p
  if errs = [] then
    if 0 ≤ p.seed ∧ p.seed < 2 ^ 32 then
      generate_complete_dataset_from s p (seedTape p.seed)
    else Except.error [seedRangeMsg]
  else Except.error errs

/-- The `main_data` half of `DataValidator.get_data_quality_summary`. -/
structure MainDataSummary where
  total_records : Nat
  total_participants : Nat
  total_plans : Nat
  completeness_pct : ℚ
  avg_utilization : ℚ
deriving DecidableEq

/-- The `claims_data` half of `DataValidator.get_data_quality_summary`. -/
structure ClaimsDataSummary where
  total_claims : Nat
  total_amount : ℚ
  unique_items : Nat
deriving DecidableEq

/-- The structure returned by `DataValidator.get_data_quality_summary`. -/
structure DataQualitySummary where
  main_data : MainDataSummary
  claims_data : ClaimsDataSummary
deriving DecidableEq

/-- Models `DataValidator.get_data_quality_summary`.  The typed rows carry
all fourteen main columns and no missing cells, so `notna().sum().sum()`
equals `main_df.size = 14 * len(main_df)`; the mean of an empty column
(a `NaN` in pandas) is rendered as `0`, which the claims under study do not
touch.  The claims-side guards mirror the source's
`if ... and not claims_df.empty else 0` expressions. -/
def get_data_quality_summary (main : List MainRow) (claims : List ClaimRecord) :
    DataQualitySummary :=
  { main_data :=
    { total_records := main.length
      total_participants := (main.map (fun row => row.Hashed_Participant_ID)).dedup.length
      total_plans := (main.map (fun row => row.Plan_ID)).dedup.length
      completeness_pct :=
        round1 ((((14 * main.length : Nat) : ℚ) / ((14 * main.length : Nat) : ℚ)) * 100)
      avg_utilization :=
        if main = [] then 0
        else round2 ((main.map (fun row => row.Utilization_Rate_Percent)).sum / (main.length : ℚ)) }
    claims_data :=
    { total_claims := claims.length
      total_amount :=
        if claims = [] then 0
        else round2 (claims.map (fun c => c.Paid_UnitPrice_AUD)).sum
      unique_items :=
        if claims = [] then 0
        else (claims.map (fun c => c.Support_Item_Type)).dedup.length } }

theorem ratFloor_eq_floor (x : ℚ) : Rat.floor x = ⌊x⌋ :=
  le_antisymm (Int.le_floor.mpr (Rat.le_floor.mp le_rfl)) (Rat.le_floor.mpr (Int.floor_le x))

theorem roundHalfEven_le_of_le (x : ℚ) (m : Int) (h : x ≤ (m : ℚ)) :
    roundHalfEven x ≤ m := by
  unfold roundHalfEven
  rw [ratFloor_eq_floor]
  have hfl : ⌊x⌋ ≤ m := by
    have := Int.floor_le_floor h
    simpa using this
  split_ifs with h1 h2 h3
  · exact hfl
  all_goals {
    have hx : (⌊x⌋ : ℚ) + 1 / 2 ≤ x := by
      have := not_lt.mp h1
      linarith
    have hlt : (⌊x⌋ : ℚ) < (m : ℚ) := by linarith
    have : ⌊x⌋ < m := by exact_mod_cast hlt
    omega }

theorem le_roundHalfEven_of_le (x : ℚ) (m : Int) (h : (m : ℚ) ≤ x) :
    m ≤ roundHalfEven x := by
  unfold roundHalfEven
  rw [ratFloor_eq_floor]
  have hfl : m ≤ ⌊x⌋ := Int.le_floor.mpr h
  split_ifs <;> omega

theorem roundHalfEven_le_add_half (x : ℚ) : (roundHalfEven x : ℚ) ≤ x + 1 / 2 := by
  unfold roundHalfEven
  rw [ratFloor_eq_floor]
  have hfl : (⌊x⌋ : ℚ) ≤ x := Int.floor_le x
  split_ifs with h1 h2 h3
  · linarith
  all_goals {
    have hx : (⌊x⌋ : ℚ) + 1 / 2 ≤ x := by
      have := not_lt.mp h1
      linarith
    push_cast
    linarith }

theorem round2_le_of_le_cent (x : ℚ) (k : Int) (h : x ≤ (k : ℚ) / 100) :
    round2 x ≤ (k : ℚ) / 100 := by
  unfold round2
  have h100 : x * 100 ≤ (k : ℚ) := by linarith
  have := roundHalfEven_le_of_le (x * 100) k h100
  have hc : ((roundHalfEven (x * 100) : Int) : ℚ) ≤ (k : ℚ) := by exact_mod_cast this
  linarith

theorem cent_le_round2_of_le (x : ℚ) (k : Int) (h : (k : ℚ) / 100 ≤ x) :
    (k : ℚ) / 100 ≤ round2 x := by
  unfold round2
  have h100 : (k : ℚ) ≤ x * 100 := by linarith
  have := le_roundHalfEven_of_le (x * 100) k h100
  have hc : (k : ℚ) ≤ ((roundHalfEven (x * 100) : Int) : ℚ) := by exact_mod_cast this
  linarith

theorem round2_le_add_half_cent (x : ℚ) : round2 x ≤ x + 1 / 200 := by
  unfold round2
  have := roundHalfEven_le_add_half (x * 100)
  linarith

theorem round2_nonneg (x : ℚ) (h : 0 ≤ x) : 0 ≤ round2 x := by
  have := cent_le_round2_of_le x 0 (by simpa using h)
  simpa using this

theorem randint_fst_bounds (a b : Int) (r : RNG) (hab : a ≤ b) :
    a ≤ (randint a b r).1 ∧ (randint a b r).1 ≤ b := by
  unfold randint
  have hm : (0 : Int) < b - a + 1 := by omega
  have h1 : 0 ≤ (r.tape r.pos : Int) % (b - a + 1) := Int.emod_nonneg _ (by omega)
  have h2 : (r.tape r.pos : Int) % (b - a + 1) < b - a + 1 := Int.emod_lt_of_pos _ hm
  constructor <;> simp only <;> omega

theorem randUnit_fst_bounds (r : RNG) : 0 ≤ (randUnit r).1 ∧ (randUnit r).1 < 1 := by
  unfold randUnit
  constructor
  · positivity
  · simp only
    rw [div_lt_one (by positivity)]
    have : r.tape r.pos % 2 ^ 53 < 2 ^ 53 := Nat.mod_lt _ (by norm_num)
    exact_mod_cast this

theorem randUniform_fst_bounds (a b : ℚ) (r : RNG) (hab : a ≤ b) :
    a ≤ (randUniform a b r).1 ∧ (randUniform a b r).1 ≤ b := by
  obtain ⟨h0, h1⟩ := randUnit_fst_bounds r
  unfold randUniform
  constructor
  · simp only
    nlinarith
  · simp only
    nlinarith

theorem betaSample_fst_bounds (a b : ℚ) (r : RNG) :
    0 ≤ (betaSample a b r).1 ∧ (betaSample a b r).1 ≤ 1 := by
  unfold betaSample
  constructor
  · positivity
  · simp only
    rw [div_le_one (by positivity)]
    have : r.tape r.pos % (2 ^ 53 + 1) < 2 ^ 53 + 1 := Nat.mod_lt _ (by norm_num)
    have h2 : r.tape r.pos % (2 ^ 53 + 1) ≤ 2 ^ 53 := by omega
    exact_mod_cast h2

theorem errIf_eq_nil {bad : Prop} [Decidable bad] {msg : String} :
    errIf bad msg = [] ↔ ¬ bad := by
  by_cases h : bad <;> simp [errIf, h]

theorem mem_errIf {bad : Prop} [Decidable bad] {msg : String} (h : bad) :
    msg ∈ errIf bad msg := by
  simp [errIf, h]

theorem _rand_date_fst_bounds (a b : Int) (r : RNG) (h : a ≤ b) :
    a ≤ (_rand_date a b r).1 ∧ (_rand_date a b r).1 ≤ b := by
  obtain ⟨h1, h2⟩ := randint_fst_bounds 0 (b - a) r (by omega)
  unfold _rand_date
  constructor
  · simp only
    omega
  · simp only
    omega

theorem genPlan_participant_id (s : Settings) (p : GenerationParams) (pid : String)
    (r : RNG) : ((genPlan s p pid r).1).Hashed_Participant_ID = pid := rfl

theorem genPlan_start_eq (s : Settings) (p : GenerationParams) (pid : String) (r : RNG) :
    ((genPlan s p pid r).1).Plan_Start_Date = (_rand_date p.window_start p.window_end r).1 :=
  rfl

theorem genPlan_end_eq (s : Settings) (p : GenerationParams) (pid : String) (r : RNG) :
    ((genPlan s p pid r).1).Plan_End_Date =
      min (((genPlan s p pid r).1).Plan_Start_Date + s.generation.duration_days)
        p.window_end := rfl

theorem genPlan_budget_eq (s : Settings) (p : GenerationParams) (pid : String) (r : RNG) :
    ((genPlan s p pid r).1).Capital_AT_Budget_Total_AUD =
      round2 ((randUniform s.generation.budget_min s.generation.budget_max
        (_rand_hex 8 (_rand_date p.window_start p.window_end r).2).2).1) := rfl

theorem genPlansFor_forall (s : Settings) (p : GenerationParams) (pid : String)
    {P : Plan → Prop} (hP : ∀ r : RNG, P (genPlan s p pid r).1) :
    ∀ (k : Nat) (r : RNG), ∀ pl ∈ (genPlansFor s p pid k r).1, P pl := by
  intro k
  induction k with
  | zero => intro r pl hpl; simp [genPlansFor] at hpl
  | succ k ih =>
    intro r pl hpl
    simp only [genPlansFor] at hpl
    rcases List.mem_cons.mp hpl with h | h
    · rw [h]; exact hP r
    · exact ih _ pl h

theorem genPlansAll_forall (s : Settings) (p : GenerationParams)
    {P : Plan → Prop} :
    ∀ (qs : List Participant) (r : RNG),
      (∀ q ∈ qs, ∀ r' : RNG, P (genPlan s p q.Hashed_Participant_ID r').1) →
      ∀ pl ∈ (genPlansAll s p qs r).1, P pl := by
  intro qs
  induction qs with
  | nil => intro r _ pl hpl; simp [genPlansAll] at hpl
  | cons q qs ih =>
    intro r hq pl hpl
    simp only [genPlansAll] at hpl
    rcases List.mem_append.mp hpl with h | h
    · exact genPlansFor_forall s p q.Hashed_Participant_ID
        (hq q (List.mem_cons_self q qs)) _ _ pl h
    · exact ih _ (fun q' hq' => hq q' (List.mem_cons_of_mem q hq')) pl h

theorem genPlan_bounds (s : Settings) (p : GenerationParams) (pid : String) (r : RNG)
    (hWf : SettingsWf s) (hw : p.window_start < p.window_end) :
    ((genPlan s p pid r).1).Plan_Start_Date ≤ ((genPlan s p pid r).1).Plan_End_Date ∧
    ((genPlan s p pid r).1).Plan_End_Date ≤ p.window_end ∧
    (((genPlan s p pid r).1).Plan_Start_Date < p.window_end →
      ((genPlan s p pid r).1).Plan_Start_Date < ((genPlan s p pid r).1).Plan_End_Date) ∧
    s.generation.budget_min ≤ ((genPlan s p pid r).1).Capital_AT_Budget_Total_AUD ∧
    ((genPlan s p pid r).1).Capital_AT_Budget_Total_AUD ≤ s.generation.budget_max := by
  obtain ⟨hs1, hs2⟩ := _rand_date_fst_bounds p.window_start p.window_end r (le_of_lt hw)
  rw [genPlan_end_eq, genPlan_start_eq, genPlan_budget_eq]
  have hdur := hWf.duration_pos
  obtain ⟨hb1, hb2⟩ := randUniform_fst_bounds s.generation.budget_min s.generation.budget_max
    (_rand_hex 8 (_rand_date p.window_start p.window_end r).2).2 hWf.budget_le
  obtain ⟨kmin, hkmin⟩ := hWf.budget_min_cents
  obtain ⟨kmax, hkmax⟩ := hWf.budget_max_cents
  refine ⟨?_, ?_, ?_, ?_, ?_⟩
  · exact le_min (by omega) hs2
  · exact min_le_right _ _
  · intro hlt
    exact lt_min (by omega) hlt
  · rw [hkmin]
    exact cent_le_round2_of_le _ kmin (hkmin ▸ hb1)
  · rw [hkmax]
    exact round2_le_of_le_cent _ kmax (hkmax ▸ hb2)

/-- C2 (amended): every plan produced by `generate_plans` inside a window
`window_start < window_end`, under well-formed configuration, satisfies
`start_date ≤ end_date ≤ window_end` and has its budget within the
configured bounds; `start_date < end_date` holds whenever the sampled start
date is not exactly `window_end` (the sampled start date can equal
`window_end`, giving a degenerate same-day plan — see the counterexample). -/
theorem generate_plans_bounds (s : Settings) (p : GenerationParams)
    (parts : List Participant) (r : RNG) (hWf : SettingsWf s)
    (hw : p.window_start < p.window_end) :
    ∀ pl ∈ plansOf (generate_plans s parts p r),
      pl.Plan_Start_Date ≤ pl.Plan_End_Date ∧
      pl.Plan_End_Date ≤ p.window_end ∧
      (pl.Plan_Start_Date < p.window_end → pl.Plan_Start_Date < pl.Plan_End_Date) ∧
      s.generation.budget_min ≤ pl.Capital_AT_Budget_Total_AUD ∧
      pl.Capital_AT_Budget_Total_AUD ≤ s.generation.budget_max := by
  unfold generate_plans
  split_ifs with he
  · intro pl hpl
    simp [plansOf] at hpl
  · simp only [plansOf]
    exact genPlansAll_forall s p parts r
      (fun q _ r' => genPlan_bounds s p q.Hashed_Participant_ID r' hWf hw)

/-- A concrete well-formed configuration used by concrete instances. -/
def cexSettings : Settings :=
  ⟨⟨1, 1000, 364, 100, 100, 5, 5⟩, ⟨["NSW"], ["MMM1"], ["Physical"], ["Agency"], ["New"]⟩⟩

/-- A concrete participant row used as upstream input in concrete instances. -/
def cexParticipant : Participant := ⟨"p1", "NSW", "MMM1", "5-9", "Physical"⟩

/-- Concrete parameters with a two-day window `[0, 1]`. -/
def cexParamsDates : GenerationParams := ⟨1, 1, 1, 1, 100, 3, 42, 0, 0, 1⟩

/-- A random stream whose every draw is `1`. -/
def onesTape : RNG := ⟨fun _ => 1, 0⟩

/-- Fallback row used with `List.getD`. -/
def dummyPlan : Plan := ⟨"", "", 0, 0, 0, "", ""⟩

theorem cexSettings_wf : SettingsWf cexSettings :=
  ⟨by norm_num [cexSettings], ⟨10000, by norm_num [cexSettings]⟩,
    ⟨10000, by norm_num [cexSettings]⟩, by norm_num [cexSettings]⟩

/-- C2 (counterexample): with a well-formed configuration and
`window_start < window_end`, `generate_plans` can produce a plan whose start
date equals its end date (the sampled start date hits `window_end`, so the
cap `min(start + duration, window_end)` collapses the plan to a single day),
refuting `start_date < end_date` as stated. -/
theorem generate_plans_start_lt_end_cex :
    cexParamsDates.window_start < cexParamsDates.window_end ∧
    SettingsWf cexSettings ∧
    (plansOf (generate_plans cexSettings [cexParticipant] cexParamsDates onesTape)).getD 0
        dummyPlan
      ∈ plansOf (generate_plans cexSettings [cexParticipant] cexParamsDates onesTape) ∧
    ¬ ((plansOf (generate_plans cexSettings [cexParticipant] cexParamsDates onesTape)).getD 0
          dummyPlan).Plan_Start_Date <
        ((plansOf (generate_plans cexSettings [cexParticipant] cexParamsDates onesTape)).getD 0
          dummyPlan).Plan_End_Date :=
  ⟨by decide, cexSettings_wf, by with_unfolding_all decide, by with_unfolding_all decide⟩

theorem processPlan_util_plan_id (s : Settings) (p : GenerationParams) (pl : Plan)
    (r : RNG) : (((processPlan s p pl r).1.1)).Plan_ID = pl.Plan_ID := by
  simp only [processPlan]
  split_ifs <;> rfl

theorem processPlan_claims_plan_id (s : Settings) (p : GenerationParams) (pl : Plan)
    (r : RNG) : ∀ c ∈ (processPlan s p pl r).1.2, c.Plan_ID = pl.Plan_ID := by
  have hgen : ∀ (spent : ℚ) (nc : Int) (k : Nat) (r' : RNG),
      ∀ c ∈ (genClaims spent pl.Plan_ID nc k r').1, c.Plan_ID = pl.Plan_ID := by
    intro spent nc k
    induction k with
    | zero => intro r' c hc; simp [genClaims] at hc
    | succ k ih =>
      intro r' c hc
      simp only [genClaims] at hc
      rcases List.mem_cons.mp hc with h | h
      · rw [h]
      · exact ih _ c h
  simp only [processPlan]
  split_ifs with h
  · intro c hc
    exact hgen _ _ _ _ c hc
  · intro c hc
    simp at hc

theorem util_map_plan_id (s : Settings) (p : GenerationParams) :
    ∀ (pls : List Plan) (r : RNG),
      ((generate_utilization_and_claims s p pls r).1.1).map
          (fun u => u.Plan_ID) =
        pls.map (fun pl => pl.Plan_ID) := by
  intro pls
  induction pls with
  | nil => intro r; rfl
  | cons pl pls ih =>
    intro r
    simp only [generate_utilization_and_claims, List.map_cons]
    rw [processPlan_util_plan_id, ih]

theorem claims_plan_ids_from_plans (s : Settings) (p : GenerationParams) :
    ∀ (pls : List Plan) (r : RNG),
      ∀ c ∈ (generate_utilization_and_claims s p pls r).1.2,
        ∃ pl ∈ pls, c.Plan_ID = pl.Plan_ID := by
  intro pls
  induction pls with
  | nil => intro r c hc; simp [generate_utilization_and_claims] at hc
  | cons pl pls ih =>
    intro r c hc
    simp only [generate_utilization_and_claims] at hc
    rcases List.mem_append.mp hc with h | h
    · exact ⟨pl, List.mem_cons_self pl pls, processPlan_claims_plan_id s p pl r c h⟩
    · obtain ⟨pl', hpl', hid⟩ := ih _ c h
      exact ⟨pl', List.mem_cons_of_mem pl hpl', hid⟩

theorem genPlansAll_participant_ids (s : Settings) (p : GenerationParams) :
    ∀ (parts : List Participant) (r : RNG),
      ∀ pl ∈ (genPlansAll s p parts r).1,
        pl.Hashed_Participant_ID ∈
          parts.map (fun q => q.Hashed_Participant_ID) := by
  intro parts r
  exact genPlansAll_forall s p parts r
    (fun q hq r' => by
      rw [genPlan_participant_id]
      exact List.mem_map_of_mem (fun q' => q'.Hashed_Participant_ID) hq)

theorem dfMerge_tag_mem {α β γ : Type} (lk : α → String) (rk : β → String)
    (comb : α → β → γ) (tag : α → String) (tagOut : γ → String)
    (hcomb : ∀ a b, tagOut (comb a b) = tag a) (L : List α) (R : List β)
    (a : α) (ha : a ∈ L) (hex : ∃ b ∈ R, rk b = lk a) :
    tag a ∈ (dfMerge lk rk comb L R).map tagOut := by
  obtain ⟨b, hb, hkey⟩ := hex
  rw [List.mem_map]
  refine ⟨comb a b, ?_, hcomb a b⟩
  unfold dfMerge
  rw [List.mem_flatMap]
  refine ⟨a, ha, ?_⟩
  rw [List.mem_map]
  refine ⟨b, ?_, rfl⟩
  rw [List.mem_filter]
  exact ⟨hb, by simp [hkey]⟩

theorem dfMerge_map_of_unique {α β γ : Type} (lk : α → String) (rk : β → String)
    (comb : α → β → γ) (tag : α → String) (tagOut : γ → String)
    (hcomb : ∀ a b, tagOut (comb a b) = tag a) :
    ∀ (L : List α) (R : List β),
      (∀ a ∈ L, ((R.filter fun b => rk b == lk a).length = 1)) →
      (dfMerge lk rk comb L R).map tagOut = L.map tag := by
  intro L
  induction L with
  | nil => intro R _; rfl
  | cons a t ih =>
    intro R hu
    simp only [dfMerge, List.flatMap_cons, List.map_append, List.map_cons]
    have hmap : (((R.filter fun b => rk b == lk a).map (comb a)).map tagOut) =
        List.replicate (R.filter fun b => rk b == lk a).length (tag a) := by
      rw [List.map_map]
      have : (tagOut ∘ comb a) = fun _ => tag a := by
        funext b
        exact hcomb a b
      rw [this, List.map_const']
    rw [hmap, hu a (List.mem_cons_self a t)]
    have htail := ih R (fun a' ha' => hu a' (List.mem_cons_of_mem a ha'))
    simp only [dfMerge] at htail
    rw [htail]
    rfl

theorem nodup_filter_key_length {l : List String} {a : String} (h : l.Nodup)
    (hm : a ∈ l) : (l.filter fun b => b == a).length = 1 := by
  have h1 : l.count a = 1 := List.count_eq_one_of_mem h hm
  rw [List.count_eq_countP] at h1
  rw [← List.countP_eq_length_filter]
  exact h1

theorem filter_key_length_via_map {α : Type} (l : List α) (f : α → String) (a : String) :
    (l.filter fun x => f x == a).length = ((l.map f).filter fun b => b == a).length := by
  rw [List.filter_map, List.length_map]
  rfl

theorem runMain_def (s : Settings) (p : GenerationParams) (r : RNG) :
    runMain s p r =
      dfMerge (fun row : PlanParticipantRow => row.Plan_ID)
        (fun u : UtilizationRecord => u.Plan_ID) combineUtil
        (dfMerge (fun pl : Plan => pl.Hashed_Participant_ID)
          (fun q : Participant => q.Hashed_Participant_ID) combineParticipant
          (runPlans s p r) (runParticipants s p r))
        (runUtil s p r) := rfl

/-- C7: every row of the claims table of a generation run carries a plan id
that occurs in the assembled main table (referential integrity: no orphan
claims), for every configuration, parameter value and random stream. -/
theorem claims_plan_id_in_main (s : Settings) (p : GenerationParams) (r : RNG)
    (c : ClaimRecord) (hc : c ∈ runClaims s p r) :
    c.Plan_ID ∈ (runMain s p r).map (fun row => row.Plan_ID) := by
  obtain ⟨pl, hpl, hid⟩ :=
    claims_plan_ids_from_plans s p (runPlans s p r) (runRng2 s p r) c hc
  rw [hid]
  have h1 : pl.Plan_ID ∈
      (dfMerge (fun pl : Plan => pl.Hashed_Participant_ID)
        (fun q : Participant => q.Hashed_Participant_ID) combineParticipant
        (runPlans s p r) (runParticipants s p r)).map
        (fun row : PlanParticipantRow => row.Plan_ID) := by
    obtain ⟨q, hq, hqid⟩ := List.mem_map.mp
      (genPlansAll_participant_ids s p (runParticipants s p r) (runRng1 s p r) pl hpl)
    exact dfMerge_tag_mem _ _ combineParticipant (fun pl : Plan => pl.Plan_ID)
      (fun row : PlanParticipantRow => row.Plan_ID) (fun _ _ => rfl) _ _ pl hpl
      ⟨q, hq, hqid⟩
  obtain ⟨row, hrow, hrowid⟩ := List.mem_map.mp h1
  have hutil : pl.Plan_ID ∈ (runUtil s p r).map (fun u => u.Plan_ID) := by
    have hmapeq : (runUtil s p r).map (fun u => u.Plan_ID) =
        (runPlans s p r).map (fun pl => pl.Plan_ID) :=
      util_map_plan_id s p (runPlans s p r) (runRng2 s p r)
    rw [hmapeq]
    exact List.mem_map_of_mem _ hpl
  obtain ⟨u, hu, huid⟩ := List.mem_map.mp hutil
  have h2 : row.Plan_ID ∈ (runMain s p r).map (fun row : MainRow => row.Plan_ID) := by
    rw [runMain_def]
    exact dfMerge_tag_mem (fun row : PlanParticipantRow => row.Plan_ID)
      (fun u : UtilizationRecord => u.Plan_ID) combineUtil
      (fun row : PlanParticipantRow => row.Plan_ID)
      (fun m : MainRow => m.Plan_ID) (fun _ _ => rfl) _ _ row hrow
      ⟨u, hu, by show u.Plan_ID = row.Plan_ID; rw [huid, hrowid]⟩
  rw [hrowid] at h2
  exact h2

/-- C6 (amended): when the generated participant identifiers are pairwise
distinct and the generated plan identifiers are pairwise distinct, the
assembled main table contains exactly one row per generated plan.  (Without
the distinctness assumptions the inner joins duplicate rows — identifiers
are unchecked random hex strings, so collisions are possible; see the
counterexample.) -/
theorem main_one_row_per_plan (s : Settings) (p : GenerationParams) (r : RNG)
    (hq : ((runParticipants s p r).map (fun q => q.Hashed_Participant_ID)).Nodup)
    (hpl : ((runPlans s p r).map (fun pl => pl.Plan_ID)).Nodup) :
    ∀ pl ∈ runPlans s p r,
      ((runMain s p r).filter fun row => row.Plan_ID == pl.Plan_ID).length = 1 := by
  have huniq1 : ∀ pl ∈ runPlans s p r,
      (((runParticipants s p r).filter
        fun q => q.Hashed_Participant_ID == pl.Hashed_Participant_ID).length = 1) := by
    intro pl hpl'
    rw [filter_key_length_via_map]
    exact nodup_filter_key_length hq
      (genPlansAll_participant_ids s p (runParticipants s p r) (runRng1 s p r) pl hpl')
  have hm1 : (dfMerge (fun pl : Plan => pl.Hashed_Participant_ID)
      (fun q : Participant => q.Hashed_Participant_ID) combineParticipant
      (runPlans s p r) (runParticipants s p r)).map
        (fun row : PlanParticipantRow => row.Plan_ID) =
      (runPlans s p r).map (fun pl => pl.Plan_ID) :=
    dfMerge_map_of_unique _ _ combineParticipant (fun pl : Plan => pl.Plan_ID)
      (fun row : PlanParticipantRow => row.Plan_ID) (fun _ _ => rfl) _ _ huniq1
  have hutilmap : (runUtil s p r).map (fun u => u.Plan_ID) =
      (runPlans s p r).map (fun pl => pl.Plan_ID) :=
    util_map_plan_id s p (runPlans s p r) (runRng2 s p r)
  have hutilnodup : ((runUtil s p r).map (fun u => u.Plan_ID)).Nodup := by
    rw [hutilmap]; exact hpl
  have huniq2 : ∀ row ∈ dfMerge (fun pl : Plan => pl.Hashed_Participant_ID)
      (fun q : Participant => q.Hashed_Participant_ID) combineParticipant
      (runPlans s p r) (runParticipants s p r),
      (((runUtil s p r).filter fun u => u.Plan_ID == row.Plan_ID).length = 1) := by
    intro row hrow
    have hmem : row.Plan_ID ∈ (runUtil s p r).map (fun u => u.Plan_ID) := by
      have h := List.mem_map_of_mem (fun row : PlanParticipantRow => row.Plan_ID) hrow
      rw [hm1, ← hutilmap] at h
      exact h
    rw [filter_key_length_via_map]
    exact nodup_filter_key_length hutilnodup hmem
  have hmainmap : (runMain s p r).map (fun row : MainRow => row.Plan_ID) =
      (runPlans s p r).map (fun pl => pl.Plan_ID) := by
    rw [runMain_def]
    rw [dfMerge_map_of_unique _ _ combineUtil
      (fun row : PlanParticipantRow => row.Plan_ID)
      (fun m : MainRow => m.Plan_ID) (fun _ _ => rfl) _ _ huniq2]
    exact hm1
  intro pl hpl'
  rw [filter_key_length_via_map (runMain s p r) (fun row : MainRow => row.Plan_ID)]
  rw [hmainmap]
  exact nodup_filter_key_length hpl (List.mem_map_of_mem _ hpl')

/-- Concrete parameters for one participant, window `[0, 10]`, one claim per
plan; they pass validation against `cexSettings`. -/
def cexParamsOne : GenerationParams := ⟨1, 1, 1, 1, 100, 3, 42, 5, 0, 10⟩

/-- Concrete parameters for two participants, window `[0, 10]`; they pass
validation against `cexSettings`. -/
def cexParamsTwo : GenerationParams := ⟨2, 1, 1, 1, 100, 3, 42, 5, 0, 10⟩

/-- A random stream equal to `1` everywhere except at the utilization draw of
the single plan of a one-participant run, where it yields a mid-range Beta
value so that the plan spends half its budget and emits claims. -/
def spendTape : RNG := ⟨fun i => if i = 25 then 2 ^ 52 else 1, 0⟩

/-- Fallback row used with `List.getD`. -/
def dummyClaim : ClaimRecord := ⟨"", "", 0⟩

/-- C6 (counterexample): a run on an all-ones random stream, which the
seeded source can realise, gives both participants the same random hex
identifier and both plans the same identifier; validation passes, yet the
assembled main table holds eight copies of the first generated plan instead
of one — the claim as stated fails on identifier collisions. -/
theorem main_one_row_per_plan_cex :
    validate_generation_params cexSettings cexParamsTwo = [] ∧
    (runPlans cexSettings cexParamsTwo onesTape).getD 0 dummyPlan
      ∈ runPlans cexSettings cexParamsTwo onesTape ∧
    ¬ ((runMain cexSettings cexParamsTwo onesTape).filter
        (fun row => row.Plan_ID ==
          ((runPlans cexSettings cexParamsTwo onesTape).getD 0 dummyPlan).Plan_ID)).length
      = 1 :=
  ⟨by decide, by with_unfolding_all decide, by with_unfolding_all decide⟩

/-- C6 (witness): a concrete one-participant run in which both distinctness
hypotheses hold, so the main table has exactly one row for the generated
plan. -/
theorem main_one_row_per_plan_witness :
    ((runMain cexSettings cexParamsOne onesTape).filter
      (fun row => row.Plan_ID ==
        ((runPlans cexSettings cexParamsOne onesTape).getD 0 dummyPlan).Plan_ID)).length
    = 1 :=
  main_one_row_per_plan cexSettings cexParamsOne onesTape
    (by with_unfolding_all decide) (by with_unfolding_all decide) _
    (by with_unfolding_all decide)

/-- C7 (witness): a concrete run with a non-empty claims table; its first
claim's plan id occurs in the main table. -/
theorem claims_plan_id_in_main_witness :
    ((runClaims cexSettings cexParamsOne spendTape).getD 0 dummyClaim).Plan_ID ∈
      (runMain cexSettings cexParamsOne spendTape).map (fun row => row.Plan_ID) :=
  claims_plan_id_in_main cexSettings cexParamsOne spendTape _
    (by with_unfolding_all decide)

theorem processPlan_rate_eq (s : Settings) (p : GenerationParams) (pl : Plan) (r : RNG) :
    ((processPlan s p pl r).1.1).Utilization_Rate_Percent =
      round2 (min ((betaSample 2 (p.util_spread : ℚ) r).1 * (p.util_target : ℚ) / 100) 1
        * 100) := by
  simp only [processPlan]
  split_ifs <;> rfl

theorem processPlan_spent_eq (s : Settings) (p : GenerationParams) (pl : Plan) (r : RNG) :
    ((processPlan s p pl r).1.1).Total_Spent_AUD =
      round2 (pl.Capital_AT_Budget_Total_AUD *
        min ((betaSample 2 (p.util_spread : ℚ) r).1 * (p.util_target : ℚ) / 100) 1) := by
  simp only [processPlan]
  split_ifs <;> rfl

/-- C4: each utilization record produced by the per-plan body of
`generate_utilization_and_claims` has its rate within `[0, 100]` and its
total spend at most the plan's budget up to half-cent rounding tolerance,
for a non-negative utilization target (guaranteed by validation) and a
non-negative plan budget. -/
theorem processPlan_utilization_bounds (s : Settings) (p : GenerationParams)
    (pl : Plan) (r : RNG) (ht : 0 ≤ p.util_target)
    (hb : 0 ≤ pl.Capital_AT_Budget_Total_AUD) :
    0 ≤ ((processPlan s p pl r).1.1).Utilization_Rate_Percent ∧
    ((processPlan s p pl r).1.1).Utilization_Rate_Percent ≤ 100 ∧
    ((processPlan s p pl r).1.1).Total_Spent_AUD ≤
      pl.Capital_AT_Budget_Total_AUD + 1 / 200 := by
  rw [processPlan_rate_eq, processPlan_spent_eq]
  obtain ⟨hbs0, hbs1⟩ := betaSample_fst_bounds 2 (p.util_spread : ℚ) r
  have htq : (0 : ℚ) ≤ (p.util_target : ℚ) := by exact_mod_cast ht
  have hrate0 : 0 ≤ min ((betaSample 2 (p.util_spread : ℚ) r).1 * (p.util_target : ℚ) / 100) 1 := by
    apply le_min _ zero_le_one
    positivity
  have hrate1 : min ((betaSample 2 (p.util_spread : ℚ) r).1 * (p.util_target : ℚ) / 100) 1 ≤ 1 :=
    min_le_right _ _
  refine ⟨?_, ?_, ?_⟩
  · have h0 := cent_le_round2_of_le
      (min ((betaSample 2 (p.util_spread : ℚ) r).1 * (p.util_target : ℚ) / 100) 1 * 100) 0
      (by nlinarith)
    simpa using h0
  · have h100 := round2_le_of_le_cent
      (min ((betaSample 2 (p.util_spread : ℚ) r).1 * (p.util_target : ℚ) / 100) 1 * 100) 10000
      (by nlinarith)
    have : ((10000 : Int) : ℚ) / 100 = 100 := by norm_num
    rw [this] at h100
    exact h100
  · have hmul : pl.Capital_AT_Budget_Total_AUD *
        min ((betaSample 2 (p.util_spread : ℚ) r).1 * (p.util_target : ℚ) / 100) 1 ≤
        pl.Capital_AT_Budget_Total_AUD := mul_le_of_le_one_right hb hrate1
    have := round2_le_add_half_cent (pl.Capital_AT_Budget_Total_AUD *
      min ((betaSample 2 (p.util_spread : ℚ) r).1 * (p.util_target : ℚ) / 100) 1)
    linarith

/-- C4 (witness): the bounds instantiated on a concrete plan and stream. -/
theorem processPlan_utilization_bounds_witness :
    0 ≤ ((processPlan cexSettings cexParamsOne dummyPlan onesTape).1.1).Utilization_Rate_Percent ∧
    ((processPlan cexSettings cexParamsOne dummyPlan onesTape).1.1).Utilization_Rate_Percent ≤ 100 ∧
    ((processPlan cexSettings cexParamsOne dummyPlan onesTape).1.1).Total_Spent_AUD ≤
      dummyPlan.Capital_AT_Budget_Total_AUD + 1 / 200 :=
  processPlan_utilization_bounds cexSettings cexParamsOne dummyPlan onesTape
    (by decide) (by norm_num [dummyPlan])

/-- C3: the validator returns an empty list exactly when all seven
configured conditions hold, and each failed condition contributes its own
message to the returned list. -/
theorem validate_generation_params_spec (s : Settings) (p : GenerationParams) :
    (validate_generation_params s p = [] ↔
      ((s.generation.participants_min ≤ p.n_participants ∧
        p.n_participants ≤ s.generation.participants_max) ∧
      p.claims_min ≤ p.claims_max ∧
      1 ≤ p.claims_min ∧
      (0 ≤ p.util_target ∧ p.util_target ≤ 100) ∧
      1 ≤ p.util_spread ∧
      p.window_start < p.window_end ∧
      (p.window_start ≤ p.pace_live ∧ p.pace_live ≤ p.window_end))) ∧
    (¬ (s.generation.participants_min ≤ p.n_participants ∧
        p.n_participants ≤ s.generation.participants_max) →
      participantsMsg s ∈ validate_generation_params s p) ∧
    (p.claims_max < p.claims_min →
      "Min claims cannot exceed max claims" ∈ validate_generation_params s p) ∧
    (p.claims_min < 1 →
      "Min claims must be at least 1" ∈ validate_generation_params s p) ∧
    (¬ (0 ≤ p.util_target ∧ p.util_target ≤ 100) →
      "Utilization target must be between 0 and 100" ∈ validate_generation_params s p) ∧
    (p.util_spread < 1 →
      "Utilization spread must be at least 1" ∈ validate_generation_params s p) ∧
    (p.window_end ≤ p.window_start →
      "Window start must be before window end" ∈ validate_generation_params s p) ∧
    ((p.pace_live < p.window_start ∨ p.window_end < p.pace_live) →
      "PACE live date must be within the window" ∈ validate_generation_params s p) := by
  refine ⟨?_, ?_, ?_, ?_, ?_, ?_, ?_, ?_⟩
  · simp only [validate_generation_params, List.append_eq_nil, errIf_eq_nil]
    omega
  all_goals {
    intro h
    simp [validate_generation_params, List.mem_append, errIf, h]
  }

/-- C3 (witness): the emptiness characterisation applied to concrete valid
parameters. -/
theorem validate_generation_params_spec_witness :
    validate_generation_params cexSettings cexParamsOne = [] :=
  (validate_generation_params_spec cexSettings cexParamsOne).1.mpr (by decide)

/-- C5 (amended): `generate_participants` on a zero count returns the empty
table without failing, and `generate_utilization_and_claims` maps an empty
plans table to empty output tables (`iterrows()` on the empty frame yields
nothing); `generate_plans`, however, raises `KeyError` on the empty
(columnless) participants table that `generate_participants(0)` actually
produces, instead of returning an empty plans table. -/
theorem empty_inputs_empty_outputs (s : Settings) (p : GenerationParams) (r : RNG) :
    generate_participants s 0 r = ([], r) ∧
    generate_utilization_and_claims s p [] r = (([], []), r) ∧
    generate_plans s [] p r = Except.error "KeyError: 'Hashed_Participant_ID'" :=
  ⟨rfl, rfl, rfl⟩

/-- C5 (counterexample): the empty participants table — exactly what
`generate_participants(0)` returns — makes `generate_plans` raise `KeyError`
at the column access `participants_df['Hashed_Participant_ID']` instead of
producing an empty output table, refuting the no-failure claim as stated. -/
theorem generate_plans_empty_cex :
    (generate_participants cexSettings 0 onesTape).1 = [] ∧
    generate_plans cexSettings [] cexParamsOne onesTape =
      Except.error "KeyError: 'Hashed_Participant_ID'" :=
  ⟨rfl, rfl⟩

/-- C8: a plan whose computed total spend is zero emits no claims, and under
the validated bounds `1 ≤ claims_min ≤ claims_max` the drawn claim count —
the divisor of the per-claim average — is at least one, so the average is
never computed with a zero divisor. -/
theorem zero_spent_no_claims (s : Settings) (p : GenerationParams) (pl : Plan)
    (r r' : RNG) (h1 : 1 ≤ p.claims_min) (h2 : p.claims_min ≤ p.claims_max) :
    (((processPlan s p pl r).1.1).Total_Spent_AUD = 0 →
      (processPlan s p pl r).1.2 = []) ∧
    1 ≤ (claimCount p r').1 := by
  constructor
  · intro h0
    rw [processPlan_spent_eq] at h0
    simp only [processPlan]
    split_ifs with hpos
    · exfalso
      rw [h0] at hpos
      exact lt_irrefl 0 hpos
    · rfl
  · have ha := (randint_fst_bounds p.claims_min p.claims_max r' h2).1
    exact le_trans h1 ha

/-- C8 (witness): the statement instantiated at concrete inputs with
`claims_min = claims_max = 1`. -/
theorem zero_spent_no_claims_witness :
    (((processPlan cexSettings cexParamsOne dummyPlan onesTape).1.1).Total_Spent_AUD = 0 →
      (processPlan cexSettings cexParamsOne dummyPlan onesTape).1.2 = []) ∧
    1 ≤ (claimCount cexParamsOne onesTape).1 :=
  zero_spent_no_claims cexSettings cexParamsOne dummyPlan onesTape onesTape
    (by decide) (by decide)

/-- C9: on an empty claims table the quality summary reports zero total
claims, zero total amount and zero distinct support items, for every main
table; the function is total, so no division by zero or failure occurs. -/
theorem quality_summary_empty_claims (main : List MainRow) :
    (get_data_quality_summary main []).claims_data.total_claims = 0 ∧
    (get_data_quality_summary main []).claims_data.total_amount = 0 ∧
    (get_data_quality_summary main []).claims_data.unique_items = 0 :=
  ⟨rfl, rfl, rfl⟩

/-- C10: when validation fails, `generate_complete_dataset` returns the
`ValueError` carrying exactly the validation errors, and it does so for
every random-source state — no tables are produced and no draw is consumed
on the invalid-parameter path (the result does not depend on the random
source, which is only seeded and read after the validation gate). -/
theorem invalid_params_error (s : Settings) (p : GenerationParams) (r : RNG)
    (h : validate_generation_params s p ≠ []) :
    generate_complete_dataset_from s p r =
      Except.error (validate_generation_params s p) ∧
    generate_complete_dataset s p =
      Except.error (validate_generation_params s p) := by
  constructor
  · simp only [generate_complete_dataset_from]
    rw [if_neg h]
  · simp only [generate_complete_dataset, generate_complete_dataset_from]
    rw [if_neg h]

/-- Concrete invalid parameters: `claims_min = 10 > 5 = claims_max`. -/
def cexParamsBad : GenerationParams := ⟨1, 1, 10, 5, 100, 3, 42, 5, 0, 10⟩

/-- C10 (witness): the error path instantiated at concrete invalid
parameters. -/
theorem invalid_params_error_witness :
    generate_complete_dataset_from cexSettings cexParamsBad onesTape =
      Except.error (validate_generation_params cexSettings cexParamsBad) ∧
    generate_complete_dataset cexSettings cexParamsBad =
      Except.error (validate_generation_params cexSettings cexParamsBad) :=
  invalid_params_error cexSettings cexParamsBad onesTape (by decide)

/-- The first plan generated in a concrete one-participant run. -/
def w2pl : Plan :=
  (plansOf (generate_plans cexSettings [cexParticipant] cexParamsOne onesTape)).getD 0
    dummyPlan

/-- C2 (witness): the amended bounds instantiated on the first plan of a
concrete run with a well-formed configuration and a non-degenerate window. -/
theorem generate_plans_bounds_witness :
    w2pl.Plan_Start_Date ≤ w2pl.Plan_End_Date ∧
    w2pl.Plan_End_Date ≤ cexParamsOne.window_end ∧
    (w2pl.Plan_Start_Date < cexParamsOne.window_end →
      w2pl.Plan_Start_Date < w2pl.Plan_End_Date) ∧
    cexSettings.generation.budget_min ≤ w2pl.Capital_AT_Budget_Total_AUD ∧
    w2pl.Capital_AT_Budget_Total_AUD ≤ cexSettings.generation.budget_max :=
  generate_plans_bounds cexSettings cexParamsOne [cexParticipant] onesTape
    cexSettings_wf (by decide) w2pl (by with_unfolding_all decide)
